import Mathlib

/-!
Verification of the titration-curve engine of Notebook5-TitrationCurves.

The notebook computes the titration curve of acetic acid (initial volume
acid_VolI, concentration acid_ConI) with NaOH (concentration base_Con).
We embed its executable cells over the real numbers: the equivalence-point
geometry, the numpy linspace volume grids, the quadratic solver quad_solve,
and the pre-half-equivalence buffer equilibrium model.  The notebook's cells
for the half-to-equivalence and post-equivalence regimes are blank (they are
student exercises); those components and the curve assembler are modelled
from the design document and are marked as such.
-/

namespace Titration

noncomputable section

/-- Base-10 logarithm, as numpy's log10 on positive reals: log x / log 10. -/
def log10 (x : ℝ) : ℝ := Real.log x / Real.log 10

/-- quad_solve from the notebook:
discrim = np.sqrt(b**2 - 4*a*c); sol1 = (-b + discrim)/(2*a);
sol2 = (-b - discrim)/(2*a); return [sol1, sol2].
The returned two-element Python list is modelled as the ordered pair
(sol1, sol2).  There is no discriminant check in the source: numpy's sqrt of
a negative number yields NaN (with a warning, no exception), so the function
is total and returns non-root junk on a negative discriminant; Real.sqrt of
a negative number is 0, which plays the role of that junk value here. -/
def quad_solve (a b c : ℝ) : ℝ × ℝ :=
  ((-b + Real.sqrt (b ^ 2 - 4 * a * c)) / (2 * a),
   (-b - Real.sqrt (b ^ 2 - 4 * a * c)) / (2 * a))

/-- Error kinds from the design document (DomainError, ModelInconsistencyError)
together with Python's ZeroDivisionError, which is the only failure the
notebook's geometry cell can actually raise. -/
inductive TitrationError
  | domainError
  | modelInconsistencyError
  | zeroDivisionError
  deriving DecidableEq

/-- Equivalence geometry, generalizing the notebook cell
acid_MolI = acid_VolI*acid_ConI; eq_pt = acid_MolI/base_Con;
half_eq_pt = eq_pt/2 to arbitrary inputs.  The cell performs no input
validation whatsoever; the only possible runtime failure is Python's
ZeroDivisionError when the titrant concentration is zero, which is surfaced
here as an explicit error value. -/
def compute_equivalence (Va Ca Cb : ℝ) : Except TitrationError (ℝ × ℝ × ℝ) :=
  if Cb = 0 then .error .zeroDivisionError
  else .ok (Va * Ca, Va * Ca / Cb, Va * Ca / Cb / 2)

/-- np.linspace(lo, hi, num = n, endpoint = False): the n evenly spaced points
lo + i*(hi - lo)/n for i = 0, ..., n-1 (the endpoint hi is excluded). -/
def linspace (lo hi : ℝ) (n : ℕ) : List ℝ :=
  (List.range n).map fun i : ℕ => lo + (i : ℝ) * ((hi - lo) / (n : ℝ))

/-- np.linspace with endpoint = True (closed interval), used by the design's
post-equivalence grid: n points lo + i*(hi - lo)/(n-1). -/
def linspaceClosed (lo hi : ℝ) (n : ℕ) : List ℝ :=
  (List.range n).map fun i : ℕ => lo + (i : ℝ) * ((hi - lo) / ((n - 1 : ℕ) : ℝ))

/-- TitrationSpec from the design document: analyte initial volume Va and
concentration Ca, titrant concentration Cb, acid dissociation constant Ka,
hydronium-from-water floor h (the notebook's fixed H3O_water = 1e-7) and
water ion product Kw.  The notebook hard-codes one instance (noteSpec). -/
structure TitrationSpec where
  Va : ℝ
  Ca : ℝ
  Cb : ℝ
  Ka : ℝ
  h : ℝ
  Kw : ℝ

/-- Notebook constant: acid_VolI = 0.0513 (L of acetic acid). -/
def acid_VolI : ℝ := 0.0513

/-- Notebook constant: acid_ConI = 0.131 (M acetic acid). -/
def acid_ConI : ℝ := 0.131

/-- Notebook: acid_MolI = acid_VolI * acid_ConI. -/
def acid_MolI : ℝ := acid_VolI * acid_ConI

/-- Notebook constant: base_Con = 0.0953 (M NaOH). -/
def base_Con : ℝ := 0.0953

/-- Notebook: eq_pt = acid_MolI / base_Con. -/
def eq_pt : ℝ := acid_MolI / base_Con

/-- Notebook: half_eq_pt = eq_pt / 2. -/
def half_eq_pt : ℝ := eq_pt / 2

/-- Notebook constant: equilibConst = 1.76E-5 (Ka of acetic acid). -/
def equilibConst : ℝ := 1.76e-5

/-- Notebook constant: H3O_water = 1E-7. -/
def H3O_water : ℝ := 1e-7

/-- Notebook constant: datapts = 100 volume samples per regime. -/
def datapts : ℕ := 100

/-- The TitrationSpec instance hard-coded by the notebook, with the standard
water ion product Kw = 1e-14. -/
def noteSpec : TitrationSpec :=
  ⟨acid_VolI, acid_ConI, base_Con, equilibConst, H3O_water, 1e-14⟩

/-- Equivalence volume as a function of the spec (notebook's eq_pt). -/
def V_eq (s : TitrationSpec) : ℝ := s.Va * s.Ca / s.Cb

/-- Half-equivalence volume as a function of the spec (notebook's half_eq_pt). -/
def V_half (s : TitrationSpec) : ℝ := V_eq s / 2

/-- Notebook: PreHalfEqVols = np.linspace(0, half_eq_pt, num=datapts, endpoint=False). -/
def PreHalfEqVols : List ℝ := linspace 0 half_eq_pt datapts

/-- Notebook: PostHalfEqVols = np.linspace(half_eq_pt, eq_pt, num=datapts, endpoint=False). -/
def PostHalfEqVols : List ℝ := linspace half_eq_pt eq_pt datapts

/-- Notebook: init_baseConc = (PreHalfEqVols*base_Con)/(PreHalfEqVols+acid_VolI),
pointwise at an added volume v, generalized to a spec s. -/
def init_baseConc (s : TitrationSpec) (v : ℝ) : ℝ := v * s.Cb / (v + s.Va)

/-- Notebook: init_acidConc =
(acid_ConI*acid_VolI - PreHalfEqVols*base_Con)/(PreHalfEqVols+acid_VolI),
pointwise at an added volume v, generalized to a spec s. -/
def init_acidConc (s : TitrationSpec) (v : ℝ) : ℝ :=
  (s.Ca * s.Va - v * s.Cb) / (v + s.Va)

/-- Linear coefficient of the pre-half-equivalence quadratic, as passed inline
by the notebook: init_baseConc + equilibConst + H3O_water. -/
def pre_b (s : TitrationSpec) (v : ℝ) : ℝ := init_baseConc s v + s.Ka + s.h

/-- Constant coefficient of the pre-half-equivalence quadratic, as passed
inline by the notebook: init_baseConc*H3O_water - init_acidConc*equilibConst. -/
def pre_c (s : TitrationSpec) (v : ℝ) : ℝ :=
  init_baseConc s v * s.h - init_acidConc s v * s.Ka

/-- Notebook: pre_solutions = quad_solve(1, init_baseConc+equilibConst+H3O_water,
init_baseConc*H3O_water - init_acidConc*equilibConst). -/
def pre_solutions (s : TitrationSpec) (v : ℝ) : ℝ × ℝ :=
  quad_solve 1 (pre_b s v) (pre_c s v)

/-- Notebook: preH3Oconc = pre_solutions[0] (the first returned root). -/
def preH3Oconc (s : TitrationSpec) (v : ℝ) : ℝ := (pre_solutions s v).1

/-- Notebook: pre_pH = -np.log10(preH3Oconc). -/
def pre_pH (s : TitrationSpec) (v : ℝ) : ℝ := - log10 (preH3Oconc s v)

/-- pKa of the notebook's acid: -log10(equilibConst). -/
def pKa : ℝ := - log10 equilibConst

/-- TitrationSpec used by the counterexample to claim C2: all fields positive,
with Ka = 1e-8 smaller than the water floor h = 1e-7. -/
def specSmallKa : TitrationSpec := ⟨1, 1, 1, 1e-8, 1e-7, 1e-14⟩

/-- Modelled from the spec: the root-selection policy of the regime models
(design document, section on Regime Equilibrium Models and error handling),
which is absent from src/ because the notebook's cells for the later regimes
are blank.  A negative discriminant is a DomainError; if exactly one root is
positive it is returned; both roots non-positive, or both positive, is a
ModelInconsistencyError. -/
def selectPositiveRoot (b c : ℝ) : Except TitrationError ℝ :=
  if b ^ 2 - 4 * c < 0 then .error .domainError
  else if 0 < (quad_solve 1 b c).1 then
    if 0 < (quad_solve 1 b c).2 then .error .modelInconsistencyError
    else .ok (quad_solve 1 b c).1
  else if 0 < (quad_solve 1 b c).2 then .ok (quad_solve 1 b c).2
  else .error .modelInconsistencyError

/-- Modelled from the spec: the base hydrolysis constant K_b = K_w / K_a used
by the excess-base buffer model (absent from src/: blank notebook cell). -/
def Kb (s : TitrationSpec) : ℝ := s.Kw / s.Ka

/-- Modelled from the spec: the buffer model (excess base) of regime
HALF_TO_EQ (absent from src/: blank notebook cell).  Symmetric to the
pre-half model with the roles of acid and base swapped and K_a replaced by
K_b: the quadratic in [OH-] has a = 1, b = [HA]_init + K_b + [OH-]_water,
c = [HA]_init*[OH-]_water - [A-]_init*K_b, the positive root is selected, and
pH = 14 - pOH with pOH = -log10([OH-]).  The water floor for OH- is the same
configurable constant h used for H3O+. -/
def mid_pH (s : TitrationSpec) (v : ℝ) : Except TitrationError ℝ :=
  (selectPositiveRoot (init_acidConc s v + Kb s + s.h)
      (init_acidConc s v * s.h - init_baseConc s v * Kb s)).map
    (fun oh => 14 - (- log10 oh))

/-- Modelled from the spec: the excess-strong-base model of regime POST_EQ
(absent from src/: blank notebook cell): [OH-] = (v*C_b - V_a*C_a)/(V_a + v)
and pH = 14 + log10([OH-]); no quadratic is needed. -/
def post_pH (s : TitrationSpec) (v : ℝ) : ℝ :=
  14 + log10 ((v * s.Cb - s.Va * s.Ca) / (s.Va + v))

/-- Modelled from the spec: error-propagating map used by the curve assembler
(errors abort immediately; no partial curve is returned). -/
def mapExcept {α β : Type} (f : α → Except TitrationError β) :
    List α → Except TitrationError (List β)
  | [] => .ok []
  | a :: l =>
    match f a with
    | .error e => .error e
    | .ok b =>
      match mapExcept f l with
      | .error e => .error e
      | .ok bs => .ok (b :: bs)

/-- Modelled from the spec: generate_curve(spec, V_max, samples_per_regime)
assembles the three regimes' (volume, pH) samples in order: the PRE_HALF
points on [0, V_half) (computed by the notebook's pre_pH, which has no error
branch), the HALF_TO_EQ points on [V_half, V_eq) (excess-base buffer model),
and the POST_EQ points on the closed interval [V_eq, V_max].  Any regime
error aborts the whole computation. -/
def generate_curve (s : TitrationSpec) (Vmax : ℝ) (n : ℕ) :
    Except TitrationError (List (ℝ × ℝ)) :=
  (mapExcept (fun v => (mid_pH s v).map fun p => (v, p))
      (linspace (V_half s) (V_eq s) n)).map
    fun mid =>
      ((linspace 0 (V_half s) n).map fun v => (v, pre_pH s v)) ++ mid ++
        ((linspaceClosed (V_eq s) Vmax n).map fun v => (v, post_pH s v))

/-- TitrationSpec used by the counterexample to claim C4: all fields positive
(V_a = C_a = C_b = 1, K_a = 1e-5, h = 1e-7, K_w = 1e-14), giving V_eq = 1 and
V_half = 1/2. -/
def specUnitAcid : TitrationSpec := ⟨1, 1, 1, 1e-5, 1e-7, 1e-14⟩

end

end Titration

namespace Titration

noncomputable section

/-! Quadratic-solver helper lemmas (monic case a = 1). -/

theorem quadRoot1_eq (b c : ℝ) :
    (quad_solve 1 b c).1 = (-b + Real.sqrt (b ^ 2 - 4 * c)) / 2 := by
  simp [quad_solve]

theorem quadRoot2_eq (b c : ℝ) :
    (quad_solve 1 b c).2 = (-b - Real.sqrt (b ^ 2 - 4 * c)) / 2 := by
  simp [quad_solve]

theorem quadRoot1_isRoot (b c : ℝ) (hd : 0 ≤ b ^ 2 - 4 * c) :
    (quad_solve 1 b c).1 ^ 2 + b * (quad_solve 1 b c).1 + c = 0 := by
  rw [quadRoot1_eq]
  have hs : Real.sqrt (b ^ 2 - 4 * c) ^ 2 = b ^ 2 - 4 * c := Real.sq_sqrt hd
  field_simp
  nlinarith [hs]

theorem quadRoot1_pos (b c : ℝ) (hb : 0 ≤ b) (hc : c < 0) :
    0 < (quad_solve 1 b c).1 := by
  rw [quadRoot1_eq]
  have h1 : b < Real.sqrt (b ^ 2 - 4 * c) := by
    rw [Real.lt_sqrt hb]
    linarith
  linarith

theorem quadRoot2_neg (b c : ℝ) (hb : 0 ≤ b) (hc : c < 0) :
    (quad_solve 1 b c).2 < 0 := by
  rw [quadRoot2_eq]
  have h1 : b < Real.sqrt (b ^ 2 - 4 * c) := by
    rw [Real.lt_sqrt hb]
    linarith
  linarith

theorem quad_factor (b c t : ℝ) (hd : 0 ≤ b ^ 2 - 4 * c) :
    (t - (quad_solve 1 b c).1) * (t - (quad_solve 1 b c).2)
      = t ^ 2 + b * t + c := by
  rw [quadRoot1_eq, quadRoot2_eq]
  have hs : Real.sqrt (b ^ 2 - 4 * c) ^ 2 = b ^ 2 - 4 * c := Real.sq_sqrt hd
  field_simp
  nlinarith [hs]

theorem lt_quadRoot1 (b c t : ℝ) (hd : 0 ≤ b ^ 2 - 4 * c)
    (hF : t ^ 2 + b * t + c < 0) : t < (quad_solve 1 b c).1 := by
  by_contra hcon
  push_neg at hcon
  have h2 : (quad_solve 1 b c).2 ≤ (quad_solve 1 b c).1 := by
    rw [quadRoot1_eq, quadRoot2_eq]
    have := Real.sqrt_nonneg (b ^ 2 - 4 * c)
    linarith
  have := quad_factor b c t hd
  nlinarith

theorem quadRoot1_lt (b c t : ℝ) (hd : 0 ≤ b ^ 2 - 4 * c)
    (ht : (quad_solve 1 b c).2 < t) (hF : 0 < t ^ 2 + b * t + c) :
    (quad_solve 1 b c).1 < t := by
  by_contra hcon
  push_neg at hcon
  have := quad_factor b c t hd
  nlinarith

/-! Claim C3: the quadratic solver's contract on a valid input. -/

/-- Claim C3: for every real triple (a, b, c) with a ≠ 0 and non-negative
discriminant, quad_solve returns exactly r1 = (-b + sqrt(b^2-4ac))/(2a) and
r2 = (-b - sqrt(b^2-4ac))/(2a), in that fixed order, and both returned
values satisfy a*r^2 + b*r + c = 0 (exactly, in the real-number model). -/
theorem claim_C3 (a b c : ℝ) (ha : a ≠ 0) (hd : 0 ≤ b ^ 2 - 4 * a * c) :
    quad_solve a b c
        = ((-b + Real.sqrt (b ^ 2 - 4 * a * c)) / (2 * a),
           (-b - Real.sqrt (b ^ 2 - 4 * a * c)) / (2 * a)) ∧
      a * (quad_solve a b c).1 ^ 2 + b * (quad_solve a b c).1 + c = 0 ∧
      a * (quad_solve a b c).2 ^ 2 + b * (quad_solve a b c).2 + c = 0 := by
  have hs : Real.sqrt (b ^ 2 - 4 * a * c) ^ 2 = b ^ 2 - 4 * a * c :=
    Real.sq_sqrt hd
  refine ⟨rfl, ?_, ?_⟩
  · show a * ((-b + Real.sqrt (b ^ 2 - 4 * a * c)) / (2 * a)) ^ 2
        + b * ((-b + Real.sqrt (b ^ 2 - 4 * a * c)) / (2 * a)) + c = 0
    field_simp
    nlinarith [hs]
  · show a * ((-b - Real.sqrt (b ^ 2 - 4 * a * c)) / (2 * a)) ^ 2
        + b * ((-b - Real.sqrt (b ^ 2 - 4 * a * c)) / (2 * a)) + c = 0
    field_simp
    nlinarith [hs]

/-- Witness for claim C3 at the concrete input (a, b, c) = (1, 0, -1). -/
theorem claim_C3_witness :
    (1 : ℝ) ≠ 0 ∧ (0 : ℝ) ≤ 0 ^ 2 - 4 * 1 * (-1) ∧
      (quad_solve 1 0 (-1)
          = ((-0 + Real.sqrt ((0 : ℝ) ^ 2 - 4 * 1 * (-1))) / (2 * 1),
             (-0 - Real.sqrt ((0 : ℝ) ^ 2 - 4 * 1 * (-1))) / (2 * 1)) ∧
        1 * (quad_solve 1 0 (-1)).1 ^ 2 + 0 * (quad_solve 1 0 (-1)).1 + -1 = 0 ∧
        1 * (quad_solve 1 0 (-1)).2 ^ 2 + 0 * (quad_solve 1 0 (-1)).2 + -1 = 0) :=
  ⟨by norm_num, by norm_num, claim_C3 1 0 (-1) (by norm_num) (by norm_num)⟩

/-! Claim C6: alleged DomainError of the quadratic solver on a negative
discriminant.  The source has no check at all: np.sqrt of a negative number
silently yields NaN and two (junk) values are returned to the caller. -/

/-- Counterexample to claim C6: at the concrete input (a, b, c) = (1, 0, 1)
the discriminant is -4 < 0, yet quad_solve does not fail: it returns the pair
(0, 0) (the real-model image of numpy's [nan, nan]), so root values are
returned and no DomainError is surfaced. -/
theorem claim_C6_counterexample :
    ((0 : ℝ) ^ 2 - 4 * 1 * 1 < 0) ∧ quad_solve 1 0 1 = (0, 0) := by
  constructor
  · norm_num
  · have hs : Real.sqrt (-4 : ℝ) = 0 :=
      Real.sqrt_eq_zero_of_nonpos (by norm_num)
    simp [quad_solve]
    norm_num [hs]

/-- Claim C6, amended: the quadratic solver performs no discriminant check and
raises no DomainError.  For every input with a ≠ 0 and negative discriminant
it still returns two values: both components collapse to -b/(2a) (numpy's NaN
is modelled by Real.sqrt of a negative number being 0), and the returned
value does not satisfy the quadratic equation, so the failure is silent
rather than surfaced. -/
theorem claim_C6_amended (a b c : ℝ) (ha : a ≠ 0) (hd : b ^ 2 - 4 * a * c < 0) :
    quad_solve a b c = (-b / (2 * a), -b / (2 * a)) ∧
      a * (quad_solve a b c).1 ^ 2 + b * (quad_solve a b c).1 + c ≠ 0 := by
  have hs : Real.sqrt (b ^ 2 - 4 * a * c) = 0 :=
    Real.sqrt_eq_zero_of_nonpos (le_of_lt hd)
  have hq : quad_solve a b c = (-b / (2 * a), -b / (2 * a)) := by
    simp [quad_solve, hs]
  refine ⟨hq, ?_⟩
  rw [hq]
  intro hroot
  have h4a : (4 : ℝ) * a ≠ 0 := by
    intro h
    exact ha (by linarith [h])
  have hexp : a * (-b / (2 * a)) ^ 2 + b * (-b / (2 * a)) + c
      = -(b ^ 2 - 4 * a * c) / (4 * a) := by
    field_simp
    ring
  rw [hexp] at hroot
  have : b ^ 2 - 4 * a * c = 0 := by
    field_simp at hroot
    linarith
  linarith

/-- Witness for claim C6 (amended) at the concrete input (1, 0, 1). -/
theorem claim_C6_amended_witness :
    (1 : ℝ) ≠ 0 ∧ ((0 : ℝ) ^ 2 - 4 * 1 * 1 < 0) ∧
      (quad_solve 1 0 1 = (-0 / (2 * 1), -0 / (2 * 1)) ∧
        1 * (quad_solve 1 0 1).1 ^ 2 + 0 * (quad_solve 1 0 1).1 + 1 ≠ 0) :=
  ⟨by norm_num, by norm_num, claim_C6_amended 1 0 1 (by norm_num) (by norm_num)⟩

/-! Claim C7: alleged DomainError of the equivalence-geometry cell on
non-positive inputs.  The cell validates nothing: any inputs with a nonzero
titrant concentration (including negative volumes and concentrations) are
accepted and produce the plain formula values. -/

/-- Counterexample to claim C7: at the concrete input
(V_a, C_a, C_b) = (-1, 1, 1), V_a ≤ 0, yet the calculator does not fail with
a DomainError: it succeeds and returns the formula values
(initial_moles, V_eq, V_half) = (-1, -1, -1/2). -/
theorem claim_C7_counterexample :
    ((-1 : ℝ) ≤ 0) ∧ compute_equivalence (-1) 1 1 = .ok (-1, -1, -(1 / 2)) := by
  constructor
  · norm_num
  · rw [compute_equivalence, if_neg (by norm_num : (1 : ℝ) ≠ 0)]
    norm_num

/-- Claim C7, amended: the equivalence-geometry calculator never fails with a
DomainError; it does not validate its inputs at all.  For every input with
C_b ≠ 0 (in particular for all non-positive volumes and concentrations) it
succeeds and returns initial_moles = V_a*C_a, V_eq = initial_moles/C_b,
V_half = V_eq/2; the only possible failure is Python's ZeroDivisionError at
C_b = 0. -/
theorem claim_C7_amended :
    (∀ Va Ca Cb : ℝ,
        compute_equivalence Va Ca Cb ≠ .error .domainError) ∧
      (∀ Va Ca Cb : ℝ, Cb ≠ 0 →
        compute_equivalence Va Ca Cb = .ok (Va * Ca, Va * Ca / Cb, Va * Ca / Cb / 2)) := by
  constructor
  · intro Va Ca Cb
    rw [compute_equivalence]
    by_cases hCb : Cb = 0
    · rw [if_pos hCb]
      simp
    · rw [if_neg hCb]
      simp
  · intro Va Ca Cb hCb
    rw [compute_equivalence, if_neg hCb]

/-- Witness for claim C7 (amended) at the concrete input (2, 3, 4). -/
theorem claim_C7_amended_witness :
    (4 : ℝ) ≠ 0 ∧
      compute_equivalence 2 3 4 = .ok ((2 : ℝ) * 3, 2 * 3 / 4, 2 * 3 / 4 / 2) :=
  ⟨by norm_num, claim_C7_amended.2 2 3 4 (by norm_num)⟩

/-! Claim C5: the equivalence-geometry formulas, their ordering invariant, and
the notebook's reference numbers.  The formulas and 0 < V_half < V_eq hold,
and initial_moles and V_eq match the quoted three-significant-figure values
within 1e-3 relative tolerance, but V_half does not: the exact value is
67203/1906000 = 0.03525866..., which differs from 0.0353 by about 1.17e-3 of
0.0353 (0.0353 is the correct 3-significant-figure rounding, but it is not
within 1e-3 relative tolerance). -/

/-- Counterexample to claim C5: for the notebook inputs V_a = 0.0513,
C_a = 0.131, C_b = 0.0953, the computed half-equivalence volume half_eq_pt
is NOT within 1e-3 relative tolerance of the quoted 0.0353. -/
theorem claim_C5_counterexample :
    ¬ |half_eq_pt - 0.0353| ≤ 1e-3 * 0.0353 := by
  rw [abs_of_nonpos
    (by norm_num [half_eq_pt, eq_pt, acid_MolI, acid_VolI, acid_ConI, base_Con])]
  norm_num [half_eq_pt, eq_pt, acid_MolI, acid_VolI, acid_ConI, base_Con]

/-- Claim C5, amended: the calculator computes initial_moles = V_a*C_a,
V_eq = initial_moles/C_b and V_half = V_eq/2, with 0 < V_half < V_eq for all
positive inputs; for the notebook inputs, initial_moles and V_eq are within
1e-3 relative tolerance of 0.00672 and 0.0705 respectively, while V_half is
within 1.2e-3 relative tolerance of 0.0353 (1e-3 is just missed, as the
counterexample shows). -/
theorem claim_C5_amended :
    (∀ Va Ca Cb : ℝ, 0 < Va → 0 < Ca → 0 < Cb →
      compute_equivalence Va Ca Cb = .ok (Va * Ca, Va * Ca / Cb, Va * Ca / Cb / 2) ∧
        0 < Va * Ca / Cb / 2 ∧ Va * Ca / Cb / 2 < Va * Ca / Cb) ∧
      |acid_MolI - 0.00672| ≤ 1e-3 * 0.00672 ∧
      |eq_pt - 0.0705| ≤ 1e-3 * 0.0705 ∧
      |half_eq_pt - 0.0353| ≤ 1.2e-3 * 0.0353 := by
  refine ⟨fun Va Ca Cb hVa hCa hCb => ⟨?_, ?_, ?_⟩, ?_, ?_, ?_⟩
  · rw [compute_equivalence, if_neg (ne_of_gt hCb)]
  · positivity
  · have h : 0 < Va * Ca / Cb := by positivity
    linarith
  · rw [abs_of_nonneg (by norm_num [acid_MolI, acid_VolI, acid_ConI])]
    norm_num [acid_MolI, acid_VolI, acid_ConI]
  · rw [abs_of_nonneg (by norm_num [eq_pt, acid_MolI, acid_VolI, acid_ConI, base_Con])]
    norm_num [eq_pt, acid_MolI, acid_VolI, acid_ConI, base_Con]
  · rw [abs_of_nonpos
      (by norm_num [half_eq_pt, eq_pt, acid_MolI, acid_VolI, acid_ConI, base_Con])]
    norm_num [half_eq_pt, eq_pt, acid_MolI, acid_VolI, acid_ConI, base_Con]

/-- Witness for claim C5 (amended): the universally quantified part applied at
the concrete positive input (1, 2, 4). -/
theorem claim_C5_amended_witness :
    (0 : ℝ) < 1 ∧ (0 : ℝ) < 2 ∧ (0 : ℝ) < 4 ∧
      (compute_equivalence 1 2 4 = .ok ((1 : ℝ) * 2, 1 * 2 / 4, 1 * 2 / 4 / 2) ∧
        0 < (1 : ℝ) * 2 / 4 / 2 ∧ (1 : ℝ) * 2 / 4 / 2 < 1 * 2 / 4) :=
  ⟨by norm_num, by norm_num, by norm_num,
    claim_C5_amended.1 1 2 4 (by norm_num) (by norm_num) (by norm_num)⟩

/-! Claim C8: the volume-grid generator (np.linspace with endpoint=False). -/

theorem linspace_getD (lo hi : ℝ) (n i : ℕ) (h : i < n) :
    (linspace lo hi n).getD i 0 = lo + i * ((hi - lo) / n) := by
  rw [linspace, List.getD_eq_getElem?_getD, List.getElem?_map,
    List.getElem?_range h]
  rfl

/-- Claim C8: for every half-open interval [lo, hi) with lo < hi and every
sample count n ≥ 1, the grid generator produces exactly n values, starting at
lo, with constant step (hi - lo)/n between consecutive samples, all strictly
below hi, in strictly ascending order. -/
theorem claim_C8 (lo hi : ℝ) (n : ℕ) (hlh : lo < hi) (hn : 1 ≤ n) :
    (linspace lo hi n).length = n ∧
      (linspace lo hi n).getD 0 0 = lo ∧
      (∀ i : ℕ, i + 1 < n →
        (linspace lo hi n).getD (i + 1) 0 - (linspace lo hi n).getD i 0
          = (hi - lo) / n) ∧
      (∀ x ∈ linspace lo hi n, x < hi) ∧
      List.Chain' (· < ·) (linspace lo hi n) := by
  have hn0 : (0 : ℝ) < n := by
    have : 0 < n := hn
    exact_mod_cast this
  have hstep : 0 < (hi - lo) / n := div_pos (by linarith) hn0
  refine ⟨?_, ?_, ?_, ?_, ?_⟩
  · simp [linspace]
  · rw [linspace_getD lo hi n 0 (by omega)]
    simp
  · intro i hi1
    rw [linspace_getD lo hi n (i + 1) hi1, linspace_getD lo hi n i (by omega)]
    push_cast
    ring
  · intro x hx
    rw [linspace] at hx
    simp only [List.mem_map, List.mem_range] at hx
    obtain ⟨i, hilt, rfl⟩ := hx
    have hcast : (i : ℝ) < n := by exact_mod_cast hilt
    have hmul : (i : ℝ) * ((hi - lo) / n) < n * ((hi - lo) / n) :=
      mul_lt_mul_of_pos_right hcast hstep
    have hfull : lo + (n : ℝ) * ((hi - lo) / n) = hi := by
      field_simp
    linarith
  · rw [linspace, List.chain'_map]
    cases n with
    | zero => exact List.chain'_nil
    | succ k =>
      rw [List.chain'_range_succ]
      intro m _
      have : (m : ℝ) < m + 1 := by linarith
      have := mul_lt_mul_of_pos_right this hstep
      push_cast
      push_cast at this
      linarith

/-- Witness for claim C8 at the concrete input lo = 0, hi = 1, n = 2. -/
theorem claim_C8_witness :
    (0 : ℝ) < 1 ∧ 1 ≤ 2 ∧
      ((linspace 0 1 2).length = 2 ∧
        (linspace 0 1 2).getD 0 0 = 0 ∧
        (∀ i : ℕ, i + 1 < 2 →
          (linspace 0 1 2).getD (i + 1) 0 - (linspace 0 1 2).getD i 0
            = ((1 : ℝ) - 0) / 2) ∧
        (∀ x ∈ linspace (0 : ℝ) 1 2, x < 1) ∧
        List.Chain' (· < ·) (linspace (0 : ℝ) 1 2)) :=
  ⟨by norm_num, by norm_num, claim_C8 0 1 2 (by norm_num) (by norm_num)⟩

/-! Helper lemmas for the pre-half-equivalence buffer model.  Throughout,
B := init_baseConc and A := init_acidConc denote the initial conjugate-base
and remaining-acid concentrations at added volume v. -/

theorem init_baseConc_nonneg (s : TitrationSpec) (v : ℝ) (hVa : 0 < s.Va)
    (hCb : 0 ≤ s.Cb) (hv : 0 ≤ v) : 0 ≤ init_baseConc s v := by
  rw [init_baseConc]
  apply div_nonneg (mul_nonneg hv hCb)
  linarith

theorem init_acidConc_nonneg (s : TitrationSpec) (v : ℝ) (hVa : 0 < s.Va)
    (hv : 0 ≤ v) (hvb : v * s.Cb ≤ s.Ca * s.Va) : 0 ≤ init_acidConc s v := by
  rw [init_acidConc]
  apply div_nonneg (by linarith)
  linarith

theorem init_acidConc_pos (s : TitrationSpec) (v : ℝ) (hVa : 0 < s.Va)
    (hCa : 0 < s.Ca) (hv : 0 ≤ v) (hhalf : 2 * (v * s.Cb) ≤ s.Va * s.Ca) :
    0 < init_acidConc s v := by
  rw [init_acidConc]
  apply div_pos
  · nlinarith [mul_pos hVa hCa]
  · linarith

theorem init_baseConc_le_acid (s : TitrationSpec) (v : ℝ) (hVa : 0 < s.Va)
    (hv : 0 ≤ v) (hhalf : 2 * (v * s.Cb) ≤ s.Va * s.Ca) :
    init_baseConc s v ≤ init_acidConc s v := by
  have hd : (0 : ℝ) < v + s.Va := by linarith
  rw [init_baseConc, init_acidConc, div_le_div_iff₀ hd hd]
  nlinarith

theorem pre_b_nonneg (s : TitrationSpec) (v : ℝ) (hVa : 0 < s.Va)
    (hCb : 0 ≤ s.Cb) (hKa : 0 ≤ s.Ka) (hh : 0 ≤ s.h) (hv : 0 ≤ v) :
    0 ≤ pre_b s v := by
  have := init_baseConc_nonneg s v hVa hCb hv
  rw [pre_b]
  linarith

theorem pre_c_neg (s : TitrationSpec) (v : ℝ) (hVa : 0 < s.Va) (hCa : 0 < s.Ca)
    (hCb : 0 ≤ s.Cb) (hKa : 0 < s.Ka) (hh : 0 ≤ s.h) (hhKa : s.h < s.Ka)
    (hv : 0 ≤ v) (hhalf : 2 * (v * s.Cb) ≤ s.Va * s.Ca) : pre_c s v < 0 := by
  have hA := init_acidConc_pos s v hVa hCa hv hhalf
  have hB := init_baseConc_nonneg s v hVa hCb hv
  have hBA := init_baseConc_le_acid s v hVa hv hhalf
  rw [pre_c]
  nlinarith

theorem pre_disc_nonneg (s : TitrationSpec) (v : ℝ) (hVa : 0 < s.Va)
    (hCb : 0 ≤ s.Cb) (hKa : 0 ≤ s.Ka) (hh : 0 ≤ s.h) (hv : 0 ≤ v)
    (hvb : v * s.Cb ≤ s.Ca * s.Va) : 0 ≤ pre_b s v ^ 2 - 4 * pre_c s v := by
  have hA := init_acidConc_nonneg s v hVa hv hvb
  have hB := init_baseConc_nonneg s v hVa hCb hv
  rw [pre_b, pre_c]
  nlinarith [sq_nonneg (init_baseConc s v - s.h), sq_nonneg s.Ka,
    mul_nonneg hB hKa, mul_nonneg hKa hh, mul_nonneg hA hKa]

theorem half_bound (s : TitrationSpec) (v : ℝ) (hCb : 0 < s.Cb)
    (hvh : v < V_half s) : 2 * (v * s.Cb) ≤ s.Va * s.Ca := by
  rw [V_half, V_eq] at hvh
  have h1 : v * s.Cb < s.Va * s.Ca / s.Cb / 2 * s.Cb :=
    mul_lt_mul_of_pos_right hvh hCb
  have h2 : s.Va * s.Ca / s.Cb / 2 * s.Cb = s.Va * s.Ca / 2 := by
    field_simp
    ring
  linarith

theorem preH3Oconc_pos (s : TitrationSpec) (v : ℝ) (hVa : 0 < s.Va)
    (hCa : 0 < s.Ca) (hCb : 0 ≤ s.Cb) (hKa : 0 < s.Ka) (hh : 0 ≤ s.h)
    (hhKa : s.h < s.Ka) (hv : 0 ≤ v) (hhalf : 2 * (v * s.Cb) ≤ s.Va * s.Ca) :
    0 < preH3Oconc s v := by
  rw [preH3Oconc, pre_solutions]
  exact quadRoot1_pos _ _ (pre_b_nonneg s v hVa hCb hKa.le hh hv)
    (pre_c_neg s v hVa hCa hCb hKa hh hhKa hv hhalf)

/-! Claim C10: the discriminant of the pre-half quadratic is non-negative
throughout the PRE_HALF regime, so the square root inside the solver is
always defined and both returned roots are real. -/

/-- Claim C10: for every volume v in [0, V_half) with positive V_a, C_a, C_b,
K_a and non-negative water floor h, the constant coefficient satisfies
c ≤ B*h (B the conjugate-base concentration), the partial discriminant
b^2 - 4*B*h is non-negative, and the full discriminant b^2 - 4*1*c is
non-negative: the negative-discriminant branch is unreachable in PRE_HALF. -/
theorem claim_C10 (s : TitrationSpec) (v : ℝ) (hVa : 0 < s.Va) (hCa : 0 < s.Ca)
    (hCb : 0 < s.Cb) (hKa : 0 < s.Ka) (hh : 0 ≤ s.h) (hv : 0 ≤ v)
    (hvh : v < V_half s) :
    pre_c s v ≤ init_baseConc s v * s.h ∧
      0 ≤ pre_b s v ^ 2 - 4 * (init_baseConc s v * s.h) ∧
      0 ≤ pre_b s v ^ 2 - 4 * 1 * pre_c s v := by
  have hhalf := half_bound s v hCb hvh
  have hvb : v * s.Cb ≤ s.Ca * s.Va := by nlinarith [mul_nonneg hv hCb.le]
  have hA := init_acidConc_nonneg s v hVa hv hvb
  have hB := init_baseConc_nonneg s v hVa hCb.le hv
  refine ⟨?_, ?_, ?_⟩
  · rw [pre_c]
    nlinarith [mul_nonneg hA hKa.le]
  · rw [pre_b]
    nlinarith [sq_nonneg (init_baseConc s v - s.h), sq_nonneg s.Ka,
      mul_nonneg hB hKa.le, mul_nonneg hKa.le hh]
  · have := pre_disc_nonneg s v hVa hCb.le hKa.le hh hv hvb
    linarith

/-- Witness for claim C10 at the notebook spec and v = 1/100. -/
theorem claim_C10_witness :
    (0 < noteSpec.Va ∧ 0 < noteSpec.Ca ∧ 0 < noteSpec.Cb ∧ 0 < noteSpec.Ka ∧
        0 ≤ noteSpec.h ∧ (0 : ℝ) ≤ 1 / 100 ∧ (1 / 100 : ℝ) < V_half noteSpec) ∧
      (pre_c noteSpec (1 / 100) ≤ init_baseConc noteSpec (1 / 100) * noteSpec.h ∧
        0 ≤ pre_b noteSpec (1 / 100) ^ 2
            - 4 * (init_baseConc noteSpec (1 / 100) * noteSpec.h) ∧
        0 ≤ pre_b noteSpec (1 / 100) ^ 2 - 4 * 1 * pre_c noteSpec (1 / 100)) := by
  have hset : 0 < noteSpec.Va ∧ 0 < noteSpec.Ca ∧ 0 < noteSpec.Cb ∧
      0 < noteSpec.Ka ∧ 0 ≤ noteSpec.h ∧ (0 : ℝ) ≤ 1 / 100 ∧
      (1 / 100 : ℝ) < V_half noteSpec := by
    norm_num [noteSpec, V_half, V_eq, acid_VolI, acid_ConI, base_Con,
      equilibConst, H3O_water]
  exact ⟨hset, claim_C10 noteSpec (1 / 100) hset.1 hset.2.1 hset.2.2.1
    hset.2.2.2.1 hset.2.2.2.2.1 hset.2.2.2.2.2.1 hset.2.2.2.2.2.2⟩

/-! Claim C1: the pre-half buffer model computes the stated concentrations,
solves the stated monic quadratic for the hydronium concentration, and
returns pH = -log10 of the selected root. -/

/-- Claim C1: for every volume sample v in the PRE_HALF regime (0 ≤ v <
V_half, positive spec fields, non-negative water floor), the buffer model
computes conjugate-base concentration v*C_b/(V_a+v) and acid concentration
(V_a*C_a - v*C_b)/(V_a+v), the selected hydronium value is a root of the
quadratic with coefficients a = 1, b = B + K_a + h, c = B*h - A*K_a (B, A
the two concentrations), and the returned pH is -log10 of that root. -/
theorem claim_C1 (s : TitrationSpec) (v : ℝ) (hVa : 0 < s.Va) (hCa : 0 < s.Ca)
    (hCb : 0 < s.Cb) (hKa : 0 < s.Ka) (hh : 0 ≤ s.h) (hv : 0 ≤ v)
    (hvh : v < V_half s) :
    init_baseConc s v = v * s.Cb / (s.Va + v) ∧
      init_acidConc s v = (s.Va * s.Ca - v * s.Cb) / (s.Va + v) ∧
      1 * preH3Oconc s v ^ 2 + pre_b s v * preH3Oconc s v + pre_c s v = 0 ∧
      pre_b s v = init_baseConc s v + s.Ka + s.h ∧
      pre_c s v = init_baseConc s v * s.h - init_acidConc s v * s.Ka ∧
      pre_pH s v = - log10 (preH3Oconc s v) := by
  have hhalf := half_bound s v hCb hvh
  have hvb : v * s.Cb ≤ s.Ca * s.Va := by nlinarith [mul_nonneg hv hCb.le]
  refine ⟨?_, ?_, ?_, rfl, rfl, rfl⟩
  · rw [init_baseConc, add_comm v s.Va]
  · rw [init_acidConc, add_comm v s.Va, mul_comm s.Ca s.Va]
  · have hd := pre_disc_nonneg s v hVa hCb.le hKa.le hh hv hvb
    have hroot := quadRoot1_isRoot (pre_b s v) (pre_c s v) (by linarith)
    rw [preH3Oconc, pre_solutions]
    linarith [hroot]

/-- Witness for claim C1 at the notebook spec and v = 0 (no base added). -/
theorem claim_C1_witness :
    (0 < noteSpec.Va ∧ 0 < noteSpec.Ca ∧ 0 < noteSpec.Cb ∧ 0 < noteSpec.Ka ∧
        0 ≤ noteSpec.h ∧ (0 : ℝ) ≤ 0 ∧ (0 : ℝ) < V_half noteSpec) ∧
      (init_baseConc noteSpec 0 = 0 * noteSpec.Cb / (noteSpec.Va + 0) ∧
        init_acidConc noteSpec 0
          = (noteSpec.Va * noteSpec.Ca - 0 * noteSpec.Cb) / (noteSpec.Va + 0) ∧
        1 * preH3Oconc noteSpec 0 ^ 2 + pre_b noteSpec 0 * preH3Oconc noteSpec 0
            + pre_c noteSpec 0 = 0 ∧
        pre_b noteSpec 0 = init_baseConc noteSpec 0 + noteSpec.Ka + noteSpec.h ∧
        pre_c noteSpec 0
          = init_baseConc noteSpec 0 * noteSpec.h
              - init_acidConc noteSpec 0 * noteSpec.Ka ∧
        pre_pH noteSpec 0 = - log10 (preH3Oconc noteSpec 0)) := by
  have hset : 0 < noteSpec.Va ∧ 0 < noteSpec.Ca ∧ 0 < noteSpec.Cb ∧
      0 < noteSpec.Ka ∧ 0 ≤ noteSpec.h ∧ (0 : ℝ) ≤ 0 ∧
      (0 : ℝ) < V_half noteSpec := by
    norm_num [noteSpec, V_half, V_eq, acid_VolI, acid_ConI, base_Con,
      equilibConst, H3O_water]
  exact ⟨hset, claim_C1 noteSpec 0 hset.1 hset.2.1 hset.2.2.1
    hset.2.2.2.1 hset.2.2.2.2.1 hset.2.2.2.2.2.1 hset.2.2.2.2.2.2⟩

/-! Claim C2: positivity of the selected root.  The claim quantifies over all
positive K_a, but the code's water floor H3O_water = 1e-7 is added to the
quadratic unconditionally, and when K_a < H3O_water the constant coefficient
c turns positive inside PRE_HALF, making both roots negative: the selected
root pre_solutions[0] is then negative, so the claim fails.  It becomes true
under the extra hypothesis K_a > H3O_water (which the notebook's acetic-acid
value 1.76e-5 satisfies). -/

/-- Counterexample to claim C2: for the valid inputs V_a = C_a = C_b = 1,
K_a = 1e-8 > 0 and the PRE_HALF volume sample v = 2/5 (which satisfies
0 ≤ v < V_half and v*C_b < V_a*C_a), the root selected by the buffer model is
negative, not positive. -/
theorem claim_C2_counterexample :
    0 < specSmallKa.Va ∧ 0 < specSmallKa.Ca ∧ 0 < specSmallKa.Cb ∧
      0 < specSmallKa.Ka ∧ (0 : ℝ) ≤ 2 / 5 ∧
      (2 / 5 : ℝ) < V_half specSmallKa ∧
      (2 / 5 : ℝ) * specSmallKa.Cb < specSmallKa.Va * specSmallKa.Ca ∧
      preH3Oconc specSmallKa (2 / 5) < 0 := by
  have hb : pre_b specSmallKa (2 / 5) = 2 / 7 + 11 / 10 ^ 8 := by
    norm_num [pre_b, init_baseConc, specSmallKa]
  have hc : pre_c specSmallKa (2 / 5) = 17 / (7 * 10 ^ 8) := by
    norm_num [pre_c, init_baseConc, init_acidConc, specSmallKa]
  refine ⟨by norm_num [specSmallKa], by norm_num [specSmallKa],
    by norm_num [specSmallKa], by norm_num [specSmallKa], by norm_num,
    by norm_num [specSmallKa, V_half, V_eq], by norm_num [specSmallKa], ?_⟩
  rw [preH3Oconc, pre_solutions, quadRoot1_eq]
  have hbpos : (0 : ℝ) < pre_b specSmallKa (2 / 5) := by rw [hb]; norm_num
  have hs : Real.sqrt (pre_b specSmallKa (2 / 5) ^ 2 - 4 * pre_c specSmallKa (2 / 5))
      < pre_b specSmallKa (2 / 5) := by
    rw [Real.sqrt_lt' hbpos]
    rw [hc]
    norm_num
  linarith

/-- Claim C2, amended: for every PRE_HALF volume sample with positive
V_a, C_a, C_b, K_a, 0 ≤ v, 2*v*C_b ≤ V_a*C_a, non-negative water floor h and
the additional hypothesis h < K_a (forced by the counterexample; the
notebook's K_a = 1.76e-5 > 1e-7 satisfies it), the root the buffer model
selects is positive and the other root is negative, so exactly one root is
positive and the two-positive-roots ModelInconsistencyError case cannot
arise. -/
theorem claim_C2_amended (s : TitrationSpec) (v : ℝ) (hVa : 0 < s.Va)
    (hCa : 0 < s.Ca) (hCb : 0 < s.Cb) (hKa : 0 < s.Ka) (hh : 0 ≤ s.h)
    (hhKa : s.h < s.Ka) (hv : 0 ≤ v) (hhalf : 2 * (v * s.Cb) ≤ s.Va * s.Ca) :
    0 < (pre_solutions s v).1 ∧ (pre_solutions s v).2 < 0 := by
  have hbn := pre_b_nonneg s v hVa hCb.le hKa.le hh hv
  have hcn := pre_c_neg s v hVa hCa hCb.le hKa hh hhKa hv hhalf
  rw [pre_solutions]
  exact ⟨quadRoot1_pos _ _ hbn hcn, quadRoot2_neg _ _ hbn hcn⟩

/-- Witness for claim C2 (amended) at the notebook spec and v = 1/100. -/
theorem claim_C2_amended_witness :
    (0 < noteSpec.Va ∧ 0 < noteSpec.Ca ∧ 0 < noteSpec.Cb ∧ 0 < noteSpec.Ka ∧
        0 ≤ noteSpec.h ∧ noteSpec.h < noteSpec.Ka ∧ (0 : ℝ) ≤ 1 / 100 ∧
        2 * ((1 / 100 : ℝ) * noteSpec.Cb) ≤ noteSpec.Va * noteSpec.Ca) ∧
      (0 < (pre_solutions noteSpec (1 / 100)).1 ∧
        (pre_solutions noteSpec (1 / 100)).2 < 0) := by
  have hset : 0 < noteSpec.Va ∧ 0 < noteSpec.Ca ∧ 0 < noteSpec.Cb ∧
      0 < noteSpec.Ka ∧ 0 ≤ noteSpec.h ∧ noteSpec.h < noteSpec.Ka ∧
      (0 : ℝ) ≤ 1 / 100 ∧
      2 * ((1 / 100 : ℝ) * noteSpec.Cb) ≤ noteSpec.Va * noteSpec.Ca := by
    norm_num [noteSpec, acid_VolI, acid_ConI, base_Con, equilibConst, H3O_water]
  exact ⟨hset, claim_C2_amended noteSpec (1 / 100) hset.1 hset.2.1 hset.2.2.1
    hset.2.2.2.1 hset.2.2.2.2.1 hset.2.2.2.2.2.1 hset.2.2.2.2.2.2.1
    hset.2.2.2.2.2.2.2⟩

/-! Monotonicity of the pre-half buffer model: as base is added the
conjugate-base concentration rises, the acid concentration falls, the
selected hydronium root falls, and the pH rises. -/

theorem init_baseConc_lt (s : TitrationSpec) (v1 v2 : ℝ) (hVa : 0 < s.Va)
    (hCb : 0 < s.Cb) (h1 : 0 ≤ v1) (h12 : v1 < v2) :
    init_baseConc s v1 < init_baseConc s v2 := by
  have hd1 : (0 : ℝ) < v1 + s.Va := by linarith
  have hd2 : (0 : ℝ) < v2 + s.Va := by linarith
  rw [init_baseConc, init_baseConc, div_lt_div_iff₀ hd1 hd2]
  nlinarith [mul_pos (mul_pos hCb hVa) (sub_pos.mpr h12)]

theorem init_acidConc_lt (s : TitrationSpec) (v1 v2 : ℝ) (hVa : 0 < s.Va)
    (hCa : 0 < s.Ca) (hCb : 0 < s.Cb) (h1 : 0 ≤ v1) (h12 : v1 < v2) :
    init_acidConc s v2 < init_acidConc s v1 := by
  have hd1 : (0 : ℝ) < v1 + s.Va := by linarith
  have hd2 : (0 : ℝ) < v2 + s.Va := by linarith
  rw [init_acidConc, init_acidConc, div_lt_div_iff₀ hd2 hd1]
  nlinarith [mul_pos (mul_pos hVa hCa) (sub_pos.mpr h12),
    mul_pos (mul_pos hVa hCb) (sub_pos.mpr h12)]

theorem preH3Oconc_strictAnti (s : TitrationSpec) (v1 v2 : ℝ) (hVa : 0 < s.Va)
    (hCa : 0 < s.Ca) (hCb : 0 < s.Cb) (hKa : 0 < s.Ka) (hh : 0 ≤ s.h)
    (hhKa : s.h < s.Ka) (h1 : 0 ≤ v1) (h12 : v1 < v2)
    (hhalf2 : 2 * (v2 * s.Cb) ≤ s.Va * s.Ca) :
    preH3Oconc s v2 < preH3Oconc s v1 := by
  have h2 : (0 : ℝ) ≤ v2 := by linarith
  have hhalf1 : 2 * (v1 * s.Cb) ≤ s.Va * s.Ca := by
    nlinarith [mul_pos hCb (sub_pos.mpr h12)]
  have hvb1 : v1 * s.Cb ≤ s.Ca * s.Va := by nlinarith [mul_nonneg h1 hCb.le]
  have hvb2 : v2 * s.Cb ≤ s.Ca * s.Va := by nlinarith [mul_nonneg h2 hCb.le]
  have hd1 := pre_disc_nonneg s v1 hVa hCb.le hKa.le hh h1 hvb1
  have hd2 := pre_disc_nonneg s v2 hVa hCb.le hKa.le hh h2 hvb2
  have hx2pos : 0 < preH3Oconc s v2 :=
    preH3Oconc_pos s v2 hVa hCa hCb.le hKa hh hhKa h2 hhalf2
  have hroot2 : preH3Oconc s v2 ^ 2 + pre_b s v2 * preH3Oconc s v2
      + pre_c s v2 = 0 := by
    rw [preH3Oconc, pre_solutions]
    exact quadRoot1_isRoot _ _ hd2
  have hB := init_baseConc_lt s v1 v2 hVa hCb h1 h12
  have hA := init_acidConc_lt s v1 v2 hVa hCa hCb h1 h12
  have hF1 : preH3Oconc s v2 ^ 2 + pre_b s v1 * preH3Oconc s v2
      + pre_c s v1 < 0 := by
    have hdiff : preH3Oconc s v2 ^ 2 + pre_b s v1 * preH3Oconc s v2 + pre_c s v1
        = (preH3Oconc s v2 ^ 2 + pre_b s v2 * preH3Oconc s v2 + pre_c s v2)
          + (init_baseConc s v1 - init_baseConc s v2) * (preH3Oconc s v2 + s.h)
          - (init_acidConc s v1 - init_acidConc s v2) * s.Ka := by
      rw [pre_b, pre_b, pre_c, pre_c]
      ring
    rw [hdiff, hroot2]
    have t1 : (init_baseConc s v1 - init_baseConc s v2)
        * (preH3Oconc s v2 + s.h) < 0 :=
      mul_neg_of_neg_of_pos (by linarith) (by linarith)
    have t2 : 0 < (init_acidConc s v1 - init_acidConc s v2) * s.Ka :=
      mul_pos (by linarith) hKa
    linarith
  have := lt_quadRoot1 (pre_b s v1) (pre_c s v1) (preH3Oconc s v2) hd1 hF1
  rw [preH3Oconc, pre_solutions]
  exact this

theorem pre_pH_lt_of_lt (s : TitrationSpec) (v1 v2 : ℝ) (hVa : 0 < s.Va)
    (hCa : 0 < s.Ca) (hCb : 0 < s.Cb) (hKa : 0 < s.Ka) (hh : 0 ≤ s.h)
    (hhKa : s.h < s.Ka) (h1 : 0 ≤ v1) (h12 : v1 < v2)
    (hhalf2 : 2 * (v2 * s.Cb) ≤ s.Va * s.Ca) :
    pre_pH s v1 < pre_pH s v2 := by
  have h2 : (0 : ℝ) ≤ v2 := by linarith
  have hx2 : 0 < preH3Oconc s v2 :=
    preH3Oconc_pos s v2 hVa hCa hCb.le hKa hh hhKa h2 hhalf2
  have hlt : preH3Oconc s v2 < preH3Oconc s v1 :=
    preH3Oconc_strictAnti s v1 v2 hVa hCa hCb hKa hh hhKa h1 h12 hhalf2
  have hlog : Real.log (preH3Oconc s v2) < Real.log (preH3Oconc s v1) :=
    Real.log_lt_log hx2 hlt
  have hlog10 : 0 < Real.log 10 := Real.log_pos (by norm_num)
  rw [pre_pH, pre_pH, log10, log10, neg_lt_neg_iff,
    div_lt_div_iff_of_pos_right hlog10]
  exact hlog

/-! Claim C4: monotonicity of the assembled curve.  The notebook only
implements the PRE_HALF regime; the HALF_TO_EQ and POST_EQ models are
modelled from the design document (mid_pH, post_pH, generate_curve).  The
full-curve statement fails: on the early part of HALF_TO_EQ the solution is
still acidic, so the true [OH-] is below the water floor h = 1e-7, the
excess-base quadratic's constant coefficient [HA]*h - [A-]*K_b is positive
(K_b = 1e-9 < h for the counterexample spec), both roots are negative, and
the spec's positive-root policy yields a ModelInconsistencyError at the very
first HALF_TO_EQ sample v = V_half: no curve is produced at all for a valid
TitrationSpec.  The PRE_HALF part of the claim is true and is the amended
statement. -/

theorem selectPositiveRoot_inconsistent (b c : ℝ) (hb : 0 ≤ b) (hc : 0 < c)
    (hd : ¬ b ^ 2 - 4 * c < 0) :
    selectPositiveRoot b c = .error .modelInconsistencyError := by
  have hs : Real.sqrt (b ^ 2 - 4 * c) ≤ b := by
    calc Real.sqrt (b ^ 2 - 4 * c) ≤ Real.sqrt (b ^ 2) :=
          Real.sqrt_le_sqrt (by linarith)
      _ = b := Real.sqrt_sq hb
  have h1 : ¬ 0 < (quad_solve 1 b c).1 := by
    rw [quadRoot1_eq]
    push_neg
    linarith
  have h2 : ¬ 0 < (quad_solve 1 b c).2 := by
    rw [quadRoot2_eq]
    push_neg
    have := Real.sqrt_nonneg (b ^ 2 - 4 * c)
    linarith
  rw [selectPositiveRoot, if_neg hd, if_neg h1, if_neg h2]

/-- Counterexample to claim C4: for the valid TitrationSpec with all fields
positive (V_a = C_a = C_b = 1, K_a = 1e-5, h = 1e-7, K_w = 1e-14) and one
sample per regime, generate_curve produces no TitrationCurve at all: the
excess-base buffer model modelled from the spec has no positive root at its
first sample v = V_half = 1/2 (both roots of the [OH-] quadratic are
negative because [HA] = [A-] there and K_b = 1e-9 < h = 1e-7), so the whole
computation aborts with a ModelInconsistencyError and there is no pH
sequence whose consecutive pairs could be non-decreasing. -/
theorem claim_C4_counterexample :
    (0 < specUnitAcid.Va ∧ 0 < specUnitAcid.Ca ∧ 0 < specUnitAcid.Cb ∧
        0 < specUnitAcid.Ka ∧ 0 < specUnitAcid.h ∧ 0 < specUnitAcid.Kw) ∧
      generate_curve specUnitAcid 2 1 = .error .modelInconsistencyError := by
  refine ⟨by norm_num [specUnitAcid], ?_⟩
  have hA : init_acidConc specUnitAcid (1 / 2) = 1 / 3 := by
    norm_num [init_acidConc, specUnitAcid]
  have hB : init_baseConc specUnitAcid (1 / 2) = 1 / 3 := by
    norm_num [init_baseConc, specUnitAcid]
  have hKb : Kb specUnitAcid = 1e-9 := by
    norm_num [Kb, specUnitAcid]
  have hsel : selectPositiveRoot
      (init_acidConc specUnitAcid (1 / 2) + Kb specUnitAcid + specUnitAcid.h)
      (init_acidConc specUnitAcid (1 / 2) * specUnitAcid.h
        - init_baseConc specUnitAcid (1 / 2) * Kb specUnitAcid)
      = .error .modelInconsistencyError := by
    apply selectPositiveRoot_inconsistent
    · rw [hA, hKb]
      norm_num [specUnitAcid]
    · rw [hA, hB, hKb]
      norm_num [specUnitAcid]
    · rw [hA, hB, hKb]
      norm_num [specUnitAcid]
  have hmid : mid_pH specUnitAcid (1 / 2) = .error .modelInconsistencyError := by
    rw [mid_pH, hsel]
    rfl
  have hg2 : linspace (V_half specUnitAcid) (V_eq specUnitAcid) 1
      = [(1 / 2 : ℝ)] := by
    rw [linspace]
    norm_num [List.range_succ, V_half, V_eq, specUnitAcid]
  rw [generate_curve, hg2, mapExcept]
  rw [hmid]
  rfl

/-- Claim C4, amended: for every valid TitrationSpec (positive V_a, C_a, C_b,
K_a, non-negative water floor h with h < K_a) and every sample count, the pH
values produced by the notebook's pre-half buffer model over the ascending
PRE_HALF volume grid are non-decreasing across all consecutive sample pairs.
(The full three-regime statement fails as the counterexample shows: the
spec-modelled excess-base regime aborts before any curve is assembled.) -/
theorem claim_C4_amended (s : TitrationSpec) (n : ℕ) (hVa : 0 < s.Va)
    (hCa : 0 < s.Ca) (hCb : 0 < s.Cb) (hKa : 0 < s.Ka) (hh : 0 ≤ s.h)
    (hhKa : s.h < s.Ka) :
    List.Chain' (· ≤ ·) ((linspace 0 (V_half s) n).map (pre_pH s)) := by
  have hVh : 0 < V_half s := by
    rw [V_half, V_eq]
    positivity
  have heq : 2 * (V_half s * s.Cb) = s.Va * s.Ca := by
    rw [V_half, V_eq]
    field_simp
    ring
  rw [linspace, List.map_map, List.chain'_map]
  cases n with
  | zero => simp
  | succ k =>
    rw [List.chain'_range_succ]
    intro m hm
    have hn0 : (0 : ℝ) < ((k + 1 : ℕ) : ℝ) := by positivity
    have hstep : 0 < (V_half s - 0) / ((k + 1 : ℕ) : ℝ) :=
      div_pos (by linarith) hn0
    have hmk : ((m : ℝ) + 1) ≤ ((k + 1 : ℕ) : ℝ) := by
      push_cast
      have : m + 1 ≤ k + 1 := by omega
      exact_mod_cast this
    have hv2 : (0 : ℝ) + ((m + 1 : ℕ) : ℝ) * ((V_half s - 0) / ((k + 1 : ℕ) : ℝ))
        ≤ V_half s := by
      have h1 : ((m + 1 : ℕ) : ℝ) * ((V_half s - 0) / ((k + 1 : ℕ) : ℝ))
          ≤ ((k + 1 : ℕ) : ℝ) * ((V_half s - 0) / ((k + 1 : ℕ) : ℝ)) := by
        apply mul_le_mul_of_nonneg_right ?_ hstep.le
        push_cast
        push_cast at hmk
        linarith
      have h2 : ((k + 1 : ℕ) : ℝ) * ((V_half s - 0) / ((k + 1 : ℕ) : ℝ))
          = V_half s := by
        field_simp
      linarith
    simp only [Function.comp]
    apply le_of_lt
    apply pre_pH_lt_of_lt s _ _ hVa hCa hCb hKa hh hhKa
    · positivity
    · have : (m : ℝ) < ((m + 1 : ℕ) : ℝ) := by
        push_cast
        linarith
      have := mul_lt_mul_of_pos_right this hstep
      linarith
    · have hCb2 : 0 ≤ ((0 : ℝ) + ((m + 1 : ℕ) : ℝ)
          * ((V_half s - 0) / ((k + 1 : ℕ) : ℝ))) := by positivity
      nlinarith [mul_le_mul_of_nonneg_right hv2 hCb.le]

/-- Witness for claim C4 (amended) at the notebook spec with the notebook's
datapts = 100 samples. -/
theorem claim_C4_amended_witness :
    (0 < noteSpec.Va ∧ 0 < noteSpec.Ca ∧ 0 < noteSpec.Cb ∧ 0 < noteSpec.Ka ∧
        0 ≤ noteSpec.h ∧ noteSpec.h < noteSpec.Ka) ∧
      List.Chain' (· ≤ ·)
        ((linspace 0 (V_half noteSpec) datapts).map (pre_pH noteSpec)) := by
  have hset : 0 < noteSpec.Va ∧ 0 < noteSpec.Ca ∧ 0 < noteSpec.Cb ∧
      0 < noteSpec.Ka ∧ 0 ≤ noteSpec.h ∧ noteSpec.h < noteSpec.Ka := by
    norm_num [noteSpec, acid_VolI, acid_ConI, base_Con, equilibConst, H3O_water]
  exact ⟨hset, claim_C4_amended noteSpec datapts hset.1 hset.2.1 hset.2.2.1
    hset.2.2.2.1 hset.2.2.2.2.1 hset.2.2.2.2.2⟩

/-! Claim C9: behaviour of the pre-half model at the half-equivalence point.
At v = V_half the two concentrations are equal, but the model's hydronium
root x0 is strictly below K_a (the quadratic also accounts for the water
floor h and for the acid consumed by dissociation), so the pH at V_half is
strictly above pKa: the limit of pre_pH as v approaches V_half from below is
pre_pH(V_half), not pKa.  The deviation is small: x0 is within a factor 1.01
of K_a, so the pH is within 0.01 of pKa, which is the part of the claim that
survives. -/

theorem noteSpec_half_hyps :
    0 < noteSpec.Va ∧ 0 < noteSpec.Ca ∧ 0 < noteSpec.Cb ∧ 0 < noteSpec.Ka ∧
      0 ≤ noteSpec.h ∧ noteSpec.h < noteSpec.Ka ∧ (0 : ℝ) ≤ half_eq_pt ∧
      2 * (half_eq_pt * noteSpec.Cb) ≤ noteSpec.Va * noteSpec.Ca := by
  norm_num [noteSpec, half_eq_pt, eq_pt, acid_MolI, acid_VolI, acid_ConI,
    base_Con, equilibConst, H3O_water]

theorem preH3O_half_pos : 0 < preH3Oconc noteSpec half_eq_pt := by
  obtain ⟨h1, h2, h3, h4, h5, h6, h7, h8⟩ := noteSpec_half_hyps
  exact preH3Oconc_pos noteSpec half_eq_pt h1 h2 h3.le h4 h5 h6 h7 h8

theorem preH3O_half_disc :
    0 ≤ pre_b noteSpec half_eq_pt ^ 2 - 4 * pre_c noteSpec half_eq_pt := by
  obtain ⟨h1, h2, h3, h4, h5, h6, h7, h8⟩ := noteSpec_half_hyps
  exact pre_disc_nonneg noteSpec half_eq_pt h1 h3.le h4.le h5 h7
    (by nlinarith [mul_nonneg h7 h3.le])

theorem preH3O_half_isRoot :
    preH3Oconc noteSpec half_eq_pt ^ 2
        + pre_b noteSpec half_eq_pt * preH3Oconc noteSpec half_eq_pt
        + pre_c noteSpec half_eq_pt = 0 := by
  rw [preH3Oconc, pre_solutions]
  exact quadRoot1_isRoot _ _ preH3O_half_disc

theorem init_conc_half_eq :
    init_acidConc noteSpec half_eq_pt = init_baseConc noteSpec half_eq_pt := by
  norm_num [init_acidConc, init_baseConc, noteSpec, half_eq_pt, eq_pt,
    acid_MolI, acid_VolI, acid_ConI, base_Con]

theorem init_baseConc_half_ge :
    (1 / 100 : ℝ) ≤ init_baseConc noteSpec half_eq_pt := by
  norm_num [init_baseConc, noteSpec, half_eq_pt, eq_pt, acid_MolI, acid_VolI,
    acid_ConI, base_Con]

theorem preH3O_half_lt_Ka : preH3Oconc noteSpec half_eq_pt < noteSpec.Ka := by
  obtain ⟨h1, h2, h3, h4, h5, h6, h7, h8⟩ := noteSpec_half_hyps
  have hB := init_baseConc_half_ge
  have hF : 0 < noteSpec.Ka ^ 2 + pre_b noteSpec half_eq_pt * noteSpec.Ka
      + pre_c noteSpec half_eq_pt := by
    rw [pre_b, pre_c, init_conc_half_eq]
    nlinarith
  have hr2 : (pre_solutions noteSpec half_eq_pt).2 < 0 := by
    rw [pre_solutions]
    apply quadRoot2_neg
    · exact pre_b_nonneg noteSpec half_eq_pt h1 h3.le h4.le h5 h7
    · exact pre_c_neg noteSpec half_eq_pt h1 h2 h3.le h4 h5 h6 h7 h8
  have := quadRoot1_lt (pre_b noteSpec half_eq_pt) (pre_c noteSpec half_eq_pt)
    noteSpec.Ka preH3O_half_disc (by rw [pre_solutions] at hr2; linarith) hF
  rw [preH3Oconc, pre_solutions]
  exact this

theorem Ka_le_preH3O_half :
    noteSpec.Ka ≤ 1.01 * preH3Oconc noteSpec half_eq_pt := by
  obtain ⟨h1, h2, h3, h4, h5, h6, h7, h8⟩ := noteSpec_half_hyps
  have hx0 := preH3O_half_pos
  have hxKa := preH3O_half_lt_Ka
  have hroot := preH3O_half_isRoot
  have hbn : 0 ≤ pre_b noteSpec half_eq_pt :=
    pre_b_nonneg noteSpec half_eq_pt h1 h3.le h4.le h5 h7
  have hprod : preH3Oconc noteSpec half_eq_pt
      * (preH3Oconc noteSpec half_eq_pt + pre_b noteSpec half_eq_pt)
      = - pre_c noteSpec half_eq_pt := by
    nlinarith [hroot]
  have hquant : noteSpec.Ka * (noteSpec.Ka + pre_b noteSpec half_eq_pt)
      ≤ 1.01 * (- pre_c noteSpec half_eq_pt) := by
    rw [pre_b, pre_c, init_conc_half_eq]
    have hKaval : noteSpec.Ka = 1.76e-5 := rfl
    have hhval : noteSpec.h = 1e-7 := rfl
    rw [hKaval, hhval]
    nlinarith [init_baseConc_half_ge]
  have h2le : preH3Oconc noteSpec half_eq_pt
      * (noteSpec.Ka + pre_b noteSpec half_eq_pt)
      ≥ preH3Oconc noteSpec half_eq_pt
      * (preH3Oconc noteSpec half_eq_pt + pre_b noteSpec half_eq_pt) :=
    mul_le_mul_of_nonneg_left (by linarith) hx0.le
  have hKb : 0 < noteSpec.Ka + pre_b noteSpec half_eq_pt := by linarith
  nlinarith [hKb, h2le, hprod, hquant]

theorem pre_pH_half_gt_pKa : pKa < pre_pH noteSpec half_eq_pt := by
  have hx0 := preH3O_half_pos
  have hxKa := preH3O_half_lt_Ka
  have hKaval : noteSpec.Ka = equilibConst := rfl
  have hlog : Real.log (preH3Oconc noteSpec half_eq_pt)
      < Real.log equilibConst := by
    rw [← hKaval]
    exact Real.log_lt_log hx0 hxKa
  have hlog10 : 0 < Real.log 10 := Real.log_pos (by norm_num)
  rw [pre_pH, pKa, log10, log10, neg_lt_neg_iff,
    div_lt_div_iff_of_pos_right hlog10]
  exact hlog

theorem pre_pH_half_near_pKa : |pre_pH noteSpec half_eq_pt - pKa| ≤ 1 / 100 := by
  have hx0 := preH3O_half_pos
  have hxKa := preH3O_half_lt_Ka
  have hKa101 := Ka_le_preH3O_half
  have hKaval : noteSpec.Ka = equilibConst := rfl
  have hKapos : (0 : ℝ) < equilibConst := by norm_num [equilibConst]
  have hlog10 : 0 < Real.log 10 := Real.log_pos (by norm_num)
  have hlogten1 : 1 ≤ Real.log 10 := by
    rw [Real.le_log_iff_exp_le (by norm_num : (0 : ℝ) < 10)]
    exact le_of_lt (lt_trans Real.exp_one_lt_d9 (by norm_num))
  have hxKaconst : preH3Oconc noteSpec half_eq_pt ≤ equilibConst := by
    rw [← hKaval]
    exact hxKa.le
  have hlo : 0 ≤ Real.log equilibConst
      - Real.log (preH3Oconc noteSpec half_eq_pt) := by
    have := Real.log_le_log hx0 hxKaconst
    linarith
  have hhi : Real.log equilibConst - Real.log (preH3Oconc noteSpec half_eq_pt)
      ≤ (1 / 100) * Real.log 10 := by
    have hdiv : Real.log (equilibConst / preH3Oconc noteSpec half_eq_pt)
        = Real.log equilibConst - Real.log (preH3Oconc noteSpec half_eq_pt) :=
      Real.log_div (ne_of_gt hKapos) (ne_of_gt hx0)
    have hratio : equilibConst / preH3Oconc noteSpec half_eq_pt ≤ 1.01 := by
      rw [div_le_iff₀ hx0]
      rw [← hKaval]
      linarith
    have hsub := Real.log_le_sub_one_of_pos
      (div_pos hKapos hx0)
    have : Real.log (equilibConst / preH3Oconc noteSpec half_eq_pt)
        ≤ 1 / 100 := by
      have h101 : equilibConst / preH3Oconc noteSpec half_eq_pt - 1
          ≤ 1 / 100 := by norm_num at hratio ⊢; linarith
      linarith
    calc Real.log equilibConst - Real.log (preH3Oconc noteSpec half_eq_pt)
        = Real.log (equilibConst / preH3Oconc noteSpec half_eq_pt) := hdiv.symm
      _ ≤ 1 / 100 := this
      _ ≤ (1 / 100) * Real.log 10 := by nlinarith
  have hval : pre_pH noteSpec half_eq_pt - pKa
      = (Real.log equilibConst - Real.log (preH3Oconc noteSpec half_eq_pt))
          / Real.log 10 := by
    rw [pre_pH, pKa, log10, log10]
    ring
  rw [hval, abs_of_nonneg (div_nonneg hlo hlog10.le)]
  rw [div_le_iff₀ hlog10]
  linarith

theorem pre_pH_contAt_half :
    ContinuousAt (fun v => pre_pH noteSpec v) half_eq_pt := by
  have hx0 := preH3O_half_pos
  have hden : half_eq_pt + noteSpec.Va ≠ 0 := by
    norm_num [noteSpec, half_eq_pt, eq_pt, acid_MolI, acid_VolI, acid_ConI,
      base_Con]
  have hBcont : ContinuousAt
      (fun v : ℝ => v * noteSpec.Cb / (v + noteSpec.Va)) half_eq_pt :=
    ContinuousAt.div (continuousAt_id.mul continuousAt_const)
      (continuousAt_id.add continuousAt_const) hden
  have hAcont : ContinuousAt
      (fun v : ℝ => (noteSpec.Ca * noteSpec.Va - v * noteSpec.Cb)
        / (v + noteSpec.Va)) half_eq_pt :=
    ContinuousAt.div (continuousAt_const.sub (continuousAt_id.mul continuousAt_const))
      (continuousAt_id.add continuousAt_const) hden
  have hbcont : ContinuousAt (fun v => pre_b noteSpec v) half_eq_pt := by
    simp only [pre_b, init_baseConc]
    exact (hBcont.add continuousAt_const).add continuousAt_const
  have hccont : ContinuousAt (fun v => pre_c noteSpec v) half_eq_pt := by
    simp only [pre_c, init_baseConc, init_acidConc]
    exact (hBcont.mul continuousAt_const).sub (hAcont.mul continuousAt_const)
  have hrootcont : ContinuousAt (fun v => preH3Oconc noteSpec v) half_eq_pt := by
    simp only [preH3Oconc, pre_solutions, quad_solve]
    apply ContinuousAt.div _ continuousAt_const (by norm_num)
    apply ContinuousAt.add hbcont.neg
    exact (Real.continuous_sqrt.continuousAt).comp
      ((hbcont.pow 2).sub (continuousAt_const.mul hccont))
  have hlogcont : ContinuousAt
      (fun v => Real.log (preH3Oconc noteSpec v)) half_eq_pt :=
    (Real.continuousAt_log (ne_of_gt hx0)).comp hrootcont
  simp only [pre_pH, log10]
  exact (hlogcont.div_const _).neg

/-- Counterexample to claim C9: the pre-half buffer model's pH does NOT tend
to pKa as the added volume approaches V_half from below.  It tends (by
continuity) to pre_pH(V_half), which is strictly greater than pKa, because
at V_half the model's hydronium root is strictly below K_a (the quadratic
also accounts for the water floor and the dissociated acid). -/
theorem claim_C9_counterexample :
    ¬ Filter.Tendsto (fun v => pre_pH noteSpec v)
        (nhdsWithin half_eq_pt (Set.Iio half_eq_pt)) (nhds pKa) := by
  intro hcontra
  have h1 : Filter.Tendsto (fun v => pre_pH noteSpec v)
      (nhdsWithin half_eq_pt (Set.Iio half_eq_pt))
      (nhds (pre_pH noteSpec half_eq_pt)) :=
    pre_pH_contAt_half.tendsto.mono_left nhdsWithin_le_nhds
  have := tendsto_nhds_unique h1 hcontra
  have := pre_pH_half_gt_pKa
  linarith

/-- Claim C9, amended: as v approaches V_half from below, the pre-half buffer
model's pH tends to its value at V_half (the model is continuous there), and
that value is within ±0.01 of pKa = -log10(1.76e-5); it is not equal to pKa
(see the counterexample), only close to it. -/
theorem claim_C9_amended :
    Filter.Tendsto (fun v => pre_pH noteSpec v)
        (nhdsWithin half_eq_pt (Set.Iio half_eq_pt))
        (nhds (pre_pH noteSpec half_eq_pt)) ∧
      |pre_pH noteSpec half_eq_pt - pKa| ≤ 1 / 100 :=
  ⟨pre_pH_contAt_half.tendsto.mono_left nhdsWithin_le_nhds,
    pre_pH_half_near_pKa⟩

end

end Titration
